import Mathlib

/-!
Shallow embedding of the edge relay node of minhtran241/multiple-edges-arch.

The embedded code is:
  - EdgeNode.process_iot_data and the recv / connect event handlers of
    src/EdgeNode.py (the standalone edge node);
  - the recv / connect event handlers of src/trigger.py (start_edge);
  - get_device_id of src/helpers/common.py.

Python floats are modelled as Rat.  A socket.io message payload (a Python
dict) is modelled field-wise: for each relevant key, the outer Option says
whether the key is present and the inner Option whether its value is None.
The external inference step predict_images (imported from outside src/) is a
black-box parameter returning none when it raises.  Elapsed wall-clock times
measured around the processing step and the emit call are symbolic
non-negative parameters dtProc and dtTrans.
-/

namespace EdgeArch

/-- Errors a Python handler can raise.  The spec calls the missing-session
case UnknownSessionError; in the code it is the KeyError raised by
sio_server.get_session for an unregistered sid. -/
inductive RecvErr where
  | unknownSession
  | keyError
  | typeError
  | processing
deriving DecidableEq, Repr

/-- Log lines produced by the handlers (only the shape is modelled). -/
inductive LogEvent where
  | receivedBatch (deviceId : String) (numPaths : Nat)
  | accTranstime (deviceId : String) (t : Rat)
  | receivedDataTrigger (deviceId : String)
  | connected (deviceId : String) (sid : String)
deriving DecidableEq, Repr

/-- An inbound message payload: the dict "data" of recv(sid, data).
Key "acc_transtime" and key "data"; outer Option is key presence, inner
Option distinguishes None from a real value. -/
structure Payload where
  acc_transtime : Option (Option Rat)
  data : Option (Option (List String))
deriving DecidableEq, Repr

/-- An outbound emit to the cloud.  The processed-batch emit carries only the
data key; the stats emit carries transtime, proctime and an explicit null
data.  An absent key and a null value are both modelled as none. -/
structure OutMsg where
  data : Option (List String)
  transtime : Option Rat
  proctime : Option Rat
deriving DecidableEq, Repr

/-- The mutable state of one edge node: the two latency counters, the
per-connection session store (sid to device id, most recent first, mirroring
save_session / get_session), and the ingest queue used by trigger.py
(entries are (device_id, full payload), as queue.put((device_id, data))). -/
structure RelayState where
  transtime : Rat
  proctime : Rat
  sessions : List (String × String)
  queue : List (String × Payload)
deriving DecidableEq, Repr

/-- get_session: first (most recent) binding for the sid wins. -/
def lookupSession : List (String × String) → String → Option String
  | [], _ => none
  | (s, d) :: rest, sid => if s = sid then some d else lookupSession rest sid

/-- get_device_id (src/helpers/common.py): environ.get of the HTTP_DEVICE_ID
header, None when absent.  The environ is reduced to that one header. -/
structure Environ where
  http_device_id : Option String
deriving DecidableEq, Repr

def get_device_id (environ : Environ) : Option String :=
  environ.http_device_id

/-- Python truthiness fallback: the expression a or b for a an optional
string falls back to b when a is None or the empty string. -/
def pyOr (a : Option String) (b : String) : String :=
  match a with
  | none => b
  | some s => if s = "" then b else s

/-- The connect handler, identical in src/EdgeNode.py and src/trigger.py:
device_id = get_device_id(environ) or sid; save_session(sid, ...). -/
def connect (st : RelayState) (sid : String) (environ : Environ) :
    RelayState × List LogEvent :=
  let deviceId := pyOr (get_device_id environ) sid
  ({ st with sessions := (sid, deviceId) :: st.sessions },
   [.connected deviceId sid])

namespace EdgeNode

/-- EdgeNode.process_iot_data of src/EdgeNode.py.  Steps, in source order:
log the batch (len(data) raises TypeError when data is None); run
predict_images and add the elapsed time dtProc to proctime (skipped when the
step raises); emit the processed batch and add the elapsed time dtTrans of
the emit call to transtime; emit a second message carrying both counters and
a null data field.  Every raise happens before any state mutation. -/
def process_iot_data (predict : List String → Option (List String))
    (dtProc dtTrans : Rat) (st : RelayState) (deviceId : String)
    (data : Option (List String)) :
    Except RecvErr (RelayState × List OutMsg × List LogEvent) :=
  match data with
  | none => .error .typeError
  | some items =>
    match predict items with
    | none => .error .processing
    | some results =>
      let st1 := { st with proctime := st.proctime + dtProc }
      let st2 := { st1 with transtime := st1.transtime + dtTrans }
      .ok (st2,
        [ { data := some results, transtime := none, proctime := none },
          { data := none, transtime := some st2.transtime,
            proctime := some st2.proctime } ],
        [ .receivedBatch deviceId items.length ])

/-- The recv handler of src/EdgeNode.py: get_session (KeyError when the sid
is unregistered); when the payload carries a non-null acc_transtime, add it
to transtime and return; otherwise read data of the payload (KeyError when
the key is absent) and call process_iot_data. -/
def recv (predict : List String → Option (List String))
    (dtProc dtTrans : Rat) (st : RelayState) (sid : String) (p : Payload) :
    Except RecvErr (RelayState × List OutMsg × List LogEvent) :=
  match lookupSession st.sessions sid with
  | none => .error .unknownSession
  | some deviceId =>
    match p.acc_transtime with
    | some (some t) =>
        .ok ({ st with transtime := st.transtime + t }, [],
             [.accTranstime deviceId t])
    | _ =>
        match p.data with
        | none => .error .keyError
        | some d => process_iot_data predict dtProc dtTrans st deviceId d

end EdgeNode

/-- One inbound transport event: the connection it arrived on, its payload,
and the elapsed times the node will measure while handling it. -/
structure InMsg where
  sid : String
  payload : Payload
  dtProc : Rat
  dtTrans : Rat
deriving DecidableEq, Repr

/-- The transport layer (python-socketio over eventlet) catches an exception
raised inside an event handler, logs it, and keeps serving the connection.
Every raise in EdgeNode.recv happens before any state mutation or emit, so a
contained error leaves the node state exactly as it was. -/
def dispatchEdge (predict : List String → Option (List String))
    (st : RelayState) (m : InMsg) : RelayState × List OutMsg :=
  match EdgeNode.recv predict m.dtProc m.dtTrans st m.sid m.payload with
  | .ok (st2, es, _) => (st2, es)
  | .error _ => (st, [])

/-- The serving loop of the standalone edge node: handle inbound events one
after another, accumulating the outbound emits. -/
def serveEdge (predict : List String → Option (List String)) :
    RelayState → List InMsg → RelayState × List OutMsg
  | st, [] => (st, [])
  | st, m :: rest =>
    let r := dispatchEdge predict st m
    let r2 := serveEdge predict r.1 rest
    (r2.1, r.2 ++ r2.2)

namespace Trigger

/-- The recv handler of start_edge in src/trigger.py.  The session lookup is
commented out in the source and device_id is the constant iot-1.  When the
payload carries a non-null data field the whole payload is enqueued;
otherwise, when it carries a non-null acc_transtime, that value is added to
transtime; a payload matching neither shape falls through silently. -/
def recv (st : RelayState) (_sid : String) (p : Payload) :
    RelayState × List LogEvent :=
  let deviceId := "iot-1"
  match p.data with
  | some (some _) =>
      ({ st with queue := st.queue ++ [(deviceId, p)] },
       [.receivedDataTrigger deviceId])
  | _ =>
      match p.acc_transtime with
      | some (some t) =>
          ({ st with transtime := st.transtime + t },
           [.accTranstime deviceId t])
      | _ => (st, [])

end Trigger

/-- C1: after a successful processing step, proctime is increased by the
processing elapsed time, then the processed batch is emitted, transtime is
increased by the elapsed time of that emit, and a second, separate message
carrying the current values of both counters with a null data payload is
emitted. -/
theorem process_iot_data_order (predict : List String → Option (List String))
    (dtProc dtTrans : Rat) (st : RelayState) (dev : String)
    (items results : List String) (h : predict items = some results) :
    EdgeNode.process_iot_data predict dtProc dtTrans st dev (some items) =
      .ok ({ st with proctime := st.proctime + dtProc,
                      transtime := st.transtime + dtTrans },
        [ { data := some results, transtime := none, proctime := none },
          { data := none, transtime := some (st.transtime + dtTrans),
            proctime := some (st.proctime + dtProc) } ],
        [ .receivedBatch dev items.length ]) := by
  simp [EdgeNode.process_iot_data, h]

/-- C2: when the processing step raises for a work batch (the payload is a
data batch for a registered session and predict_images fails on its items),
the handler raises before any state mutation or emit; the transport layer
contains and logs the exception, so no outbound emit contains the batch and
the serving loop handles the remaining messages exactly as if the failing
batch had never arrived. -/
theorem failing_batch_dropped (predict : List String → Option (List String))
    (st : RelayState) (m : InMsg) (rest : List InMsg)
    (dev : String) (items : List String)
    (hs : lookupSession st.sessions m.sid = some dev)
    (hacc : m.payload.acc_transtime = none ∨ m.payload.acc_transtime = some none)
    (hdata : m.payload.data = some (some items))
    (hfail : predict items = none) :
    EdgeNode.recv predict m.dtProc m.dtTrans st m.sid m.payload =
        .error .processing ∧
    dispatchEdge predict st m = (st, []) ∧
    serveEdge predict st (m :: rest) = serveEdge predict st rest := by
  have hr : EdgeNode.recv predict m.dtProc m.dtTrans st m.sid m.payload =
      .error .processing := by
    rcases hacc with hacc | hacc <;>
      simp [EdgeNode.recv, EdgeNode.process_iot_data, hs, hacc, hdata, hfail]
  have hd : dispatchEdge predict st m = (st, []) := by
    simp [dispatchEdge, hr]
  refine ⟨hr, hd, ?_⟩
  simp [serveEdge, hd]

/-- C2 witness: a concrete failing batch between two good ones. -/
theorem failing_batch_dropped_witness :
    EdgeNode.recv (fun _ => none) 1 1 ⟨0, 0, [("s1", "d1")], []⟩ "s1"
        ⟨none, some (some ["bad.jpg"])⟩ = .error .processing ∧
    dispatchEdge (fun _ => none) ⟨0, 0, [("s1", "d1")], []⟩
        ⟨"s1", ⟨none, some (some ["bad.jpg"])⟩, 1, 1⟩ =
      (⟨0, 0, [("s1", "d1")], []⟩, []) ∧
    serveEdge (fun _ => none) ⟨0, 0, [("s1", "d1")], []⟩
        [⟨"s1", ⟨none, some (some ["bad.jpg"])⟩, 1, 1⟩,
         ⟨"s1", ⟨some (some 3), none⟩, 0, 0⟩] =
      serveEdge (fun _ => none) ⟨0, 0, [("s1", "d1")], []⟩
        [⟨"s1", ⟨some (some 3), none⟩, 0, 0⟩] :=
  failing_batch_dropped (fun _ => none) ⟨0, 0, [("s1", "d1")], []⟩
    ⟨"s1", ⟨none, some (some ["bad.jpg"])⟩, 1, 1⟩
    [⟨"s1", ⟨some (some 3), none⟩, 0, 0⟩] "d1" ["bad.jpg"]
    (by simp [lookupSession]) (Or.inl rfl) rfl rfl

/-- C3: an inbound message on a connection with no registered session makes
get_session raise (UnknownSessionError in the spec) before the ledger is
touched or anything is emitted; the transport layer contains the exception,
the state is unchanged, and serving continues with the remaining messages. -/
theorem unknown_session_dropped (predict : List String → Option (List String))
    (st : RelayState) (m : InMsg) (rest : List InMsg)
    (hs : lookupSession st.sessions m.sid = none) :
    EdgeNode.recv predict m.dtProc m.dtTrans st m.sid m.payload =
        .error .unknownSession ∧
    dispatchEdge predict st m = (st, []) ∧
    serveEdge predict st (m :: rest) = serveEdge predict st rest := by
  have hr : EdgeNode.recv predict m.dtProc m.dtTrans st m.sid m.payload =
      .error .unknownSession := by
    simp [EdgeNode.recv, hs]
  have hd : dispatchEdge predict st m = (st, []) := by
    simp [dispatchEdge, hr]
  refine ⟨hr, hd, ?_⟩
  simp [serveEdge, hd]

/-- C3 witness: the spec scenario, a transmission-time report of 5/2 for an
unregistered connection id. -/
theorem unknown_session_dropped_witness :
    EdgeNode.recv (fun l => some l) 0 0 ⟨7, 3, [], []⟩ "ghost"
        ⟨some (some (5 / 2)), none⟩ = .error .unknownSession ∧
    dispatchEdge (fun l => some l) ⟨7, 3, [], []⟩
        ⟨"ghost", ⟨some (some (5 / 2)), none⟩, 0, 0⟩ = (⟨7, 3, [], []⟩, []) ∧
    serveEdge (fun l => some l) ⟨7, 3, [], []⟩
        [⟨"ghost", ⟨some (some (5 / 2)), none⟩, 0, 0⟩] =
      serveEdge (fun l => some l) ⟨7, 3, [], []⟩ [] :=
  unknown_session_dropped (fun l => some l) ⟨7, 3, [], []⟩
    ⟨"ghost", ⟨some (some (5 / 2)), none⟩, 0, 0⟩ [] rfl

/-- C4 counterexample: the claim that the ledger fields never decrease fails
as stated — the recv handler adds the wire value acc_transtime to transtime
without any sign check, so a report of -1 drops transtime from 5 to 4. -/
theorem negative_report_decrements_transtime :
    EdgeNode.recv (fun l => some l) 0 0 ⟨5, 0, [("s1", "d1")], []⟩ "s1"
        ⟨some (some (-1)), none⟩ =
      .ok (⟨4, 0, [("s1", "d1")], []⟩, [], [.accTranstime "d1" (-1)]) ∧
    (4 : Rat) < 5 := by
  constructor
  · simp [EdgeNode.recv, lookupSession]
    norm_num
  · norm_num

/-- C4 amended: every operation that touches the ledger only adds its delta,
so provided every delta is non-negative (measured elapsed times and reported
transmission times), both counters are monotonically non-decreasing across
the recv handlers of both files; there is no dedicated decrement operation. -/
theorem ledger_monotone_of_nonneg_deltas
    (predict : List String → Option (List String))
    (dtProc dtTrans : Rat) (st : RelayState) (sid : String) (p : Payload)
    (hp : 0 ≤ dtProc) (htr : 0 ≤ dtTrans)
    (hacc : ∀ t, p.acc_transtime = some (some t) → 0 ≤ t) :
    (∀ st2 es ls,
        EdgeNode.recv predict dtProc dtTrans st sid p = .ok (st2, es, ls) →
        st.transtime ≤ st2.transtime ∧ st.proctime ≤ st2.proctime) ∧
    (st.transtime ≤ (Trigger.recv st sid p).1.transtime ∧
     st.proctime ≤ (Trigger.recv st sid p).1.proctime) := by
  constructor
  · intro st2 es ls hok
    unfold EdgeNode.recv at hok
    rcases hl : lookupSession st.sessions sid with _ | dev <;> rw [hl] at hok
    · simp at hok
    · rcases ha : p.acc_transtime with _ | t0 <;> rw [ha] at hok
      · rcases hd : p.data with _ | d <;> rw [hd] at hok
        · simp at hok
        · unfold EdgeNode.process_iot_data at hok
          rcases d with _ | items
          · simp at hok
          · rcases hpr : predict items with _ | results <;>
              simp [hpr] at hok
            rcases hok with ⟨hst, -, -⟩
            subst hst
            constructor <;> simp <;> linarith
      · rcases t0 with _ | t
        · rcases hd : p.data with _ | d <;> rw [hd] at hok
          · simp at hok
          · unfold EdgeNode.process_iot_data at hok
            rcases d with _ | items
            · simp at hok
            · rcases hpr : predict items with _ | results <;>
                simp [hpr] at hok
              rcases hok with ⟨hst, -, -⟩
              subst hst
              constructor <;> simp <;> linarith
        · simp at hok
          rcases hok with ⟨hst, -, -⟩
          subst hst
          have := hacc t (by rw [ha])
          constructor
          · simp
            linarith
          · simp
  · unfold Trigger.recv
    rcases hd : p.data with _ | d
    · rcases ha : p.acc_transtime with _ | t0
      · simp
      · rcases t0 with _ | t
        · simp
        · have := hacc t (by rw [ha])
          simp
          linarith
    · rcases d with _ | items
      · rcases ha : p.acc_transtime with _ | t0
        · simp
        · rcases t0 with _ | t
          · simp
          · have := hacc t (by rw [ha])
            simp
            linarith
      · simp

/-- C4 amended witness: both handlers at a concrete non-negative report. -/
theorem ledger_monotone_of_nonneg_deltas_witness :
    (∀ st2 es ls,
        EdgeNode.recv (fun l => some l) 1 1 ⟨5, 2, [("s1", "d1")], []⟩ "s1"
            ⟨some (some 3), none⟩ = .ok (st2, es, ls) →
        (5 : Rat) ≤ st2.transtime ∧ (2 : Rat) ≤ st2.proctime) ∧
    ((5 : Rat) ≤
        (Trigger.recv ⟨5, 2, [("s1", "d1")], []⟩ "s1"
          ⟨some (some 3), none⟩).1.transtime ∧
     (2 : Rat) ≤
        (Trigger.recv ⟨5, 2, [("s1", "d1")], []⟩ "s1"
          ⟨some (some 3), none⟩).1.proctime) :=
  ledger_monotone_of_nonneg_deltas (fun l => some l) 1 1
    ⟨5, 2, [("s1", "d1")], []⟩ "s1" ⟨some (some 3), none⟩
    (by norm_num) (by norm_num)
    (fun t ht => by simp at ht; simp [← ht])

/-- C6: the trigger.py recv handler does not resolve the device id through
the session registry — the lookup is commented out in the source and the
device id is the constant iot-1 — and it enqueues the whole payload rather
than the batch items.  Here the connection s1 was registered with device id
d2 at connect time, yet the enqueued entry names iot-1. -/
theorem trigger_recv_hardcodes_device_id :
    Trigger.recv ⟨4, 7, [("s1", "d2")], []⟩ "s1"
        ⟨none, some (some ["a.jpg"])⟩ =
      (⟨4, 7, [("s1", "d2")], [("iot-1", ⟨none, some (some ["a.jpg"])⟩)]⟩,
       [.receivedDataTrigger "iot-1"]) ∧
    lookupSession [("s1", "d2")] "s1" = some "d2" ∧ "iot-1" ≠ "d2" := by
  refine ⟨rfl, by simp [lookupSession], by decide⟩

/-- C7 counterexample: the claim fails on the trigger.py handler, which
checks the data field first — a payload carrying both a non-null
acc_transtime of 5/2 and a non-null data field is enqueued as a batch, its
transmission report is ignored, and transtime stays 0. -/
theorem trigger_recv_both_fields_prefers_data :
    Trigger.recv ⟨0, 0, [], []⟩ "s1"
        ⟨some (some (5 / 2)), some (some ["a.jpg"])⟩ =
      (⟨0, 0, [],
         [("iot-1", ⟨some (some (5 / 2)), some (some ["a.jpg"])⟩)]⟩,
       [.receivedDataTrigger "iot-1"]) := rfl

/-- C7 amended: the EdgeNode.py handler satisfies the claim unconditionally
(a non-null acc_transtime is added to transtime and the handler returns,
touching neither the queue nor the processing step); the trigger.py handler
satisfies it only when the data field of the payload is absent or null, the
shapes the spec declares mutually exclusive. -/
theorem transmission_report_direct_add
    (predict : List String → Option (List String))
    (dtProc dtTrans t : Rat) (st : RelayState) (sid dev : String)
    (p : Payload)
    (hs : lookupSession st.sessions sid = some dev)
    (hacc : p.acc_transtime = some (some t)) :
    EdgeNode.recv predict dtProc dtTrans st sid p =
      .ok ({ st with transtime := st.transtime + t }, [],
           [.accTranstime dev t]) ∧
    ((p.data = none ∨ p.data = some none) →
      Trigger.recv st sid p =
        ({ st with transtime := st.transtime + t },
         [.accTranstime "iot-1" t])) := by
  constructor
  · simp [EdgeNode.recv, hs, hacc]
  · intro hd
    rcases hd with hd | hd <;> simp [Trigger.recv, hd, hacc]

/-- C7 amended witness: a pure transmission report of 5/2 through both
handlers. -/
theorem transmission_report_direct_add_witness :
    EdgeNode.recv (fun l => some l) 1 1 ⟨1, 1, [("s1", "d1")], []⟩ "s1"
        ⟨some (some (5 / 2)), none⟩ =
      .ok (⟨1 + 5 / 2, 1, [("s1", "d1")], []⟩, [],
           [.accTranstime "d1" (5 / 2)]) ∧
    Trigger.recv ⟨1, 1, [("s1", "d1")], []⟩ "s1" ⟨some (some (5 / 2)), none⟩ =
      (⟨1 + 5 / 2, 1, [("s1", "d1")], []⟩, [.accTranstime "iot-1" (5 / 2)]) := by
  have h := transmission_report_direct_add (fun l => some l) 1 1 (5 / 2)
    ⟨1, 1, [("s1", "d1")], []⟩ "s1" "d1" ⟨some (some (5 / 2)), none⟩
    (by simp [lookupSession]) rfl
  exact ⟨h.1, h.2 (Or.inl rfl)⟩

/-- C8 counterexample: a payload matching neither shape (acc_transtime
present but null, data key absent) is not logged — the trigger.py handler
falls through silently, producing no log line and no state change, so the
claim that such a message is logged fails. -/
theorem trigger_malformed_silently_ignored :
    Trigger.recv ⟨1, 2, [("s1", "d1")], []⟩ "s1" ⟨some none, none⟩ =
      (⟨1, 2, [("s1", "d1")], []⟩, []) := rfl

/-- C8 amended: a payload matching neither shape is discarded with the relay
state unchanged, no enqueue and no emit, and the node keeps serving; it is
not logged by node code — the trigger.py handler ignores it silently, while
the EdgeNode.py handler raises (missing or null data field, or unknown
session), an error the transport layer contains. -/
theorem malformed_payload_discarded
    (predict : List String → Option (List String))
    (st : RelayState) (m : InMsg) (rest : List InMsg)
    (hacc : m.payload.acc_transtime = none ∨
            m.payload.acc_transtime = some none)
    (hdata : m.payload.data = none ∨ m.payload.data = some none) :
    Trigger.recv st m.sid m.payload = (st, []) ∧
    (∃ e, EdgeNode.recv predict m.dtProc m.dtTrans st m.sid m.payload =
      .error e) ∧
    dispatchEdge predict st m = (st, []) ∧
    serveEdge predict st (m :: rest) = serveEdge predict st rest := by
  have ht : Trigger.recv st m.sid m.payload = (st, []) := by
    rcases hdata with hd | hd <;> rcases hacc with ha | ha <;>
      simp [Trigger.recv, hd, ha]
  have he : ∃ e, EdgeNode.recv predict m.dtProc m.dtTrans st m.sid
      m.payload = .error e := by
    rcases hl : lookupSession st.sessions m.sid with _ | dev
    · exact ⟨.unknownSession, by simp [EdgeNode.recv, hl]⟩
    · rcases hdata with hd | hd <;> rcases hacc with ha | ha
      · exact ⟨.keyError, by simp [EdgeNode.recv, hl, ha, hd]⟩
      · exact ⟨.keyError, by simp [EdgeNode.recv, hl, ha, hd]⟩
      · exact ⟨.typeError,
          by simp [EdgeNode.recv, EdgeNode.process_iot_data, hl, ha, hd]⟩
      · exact ⟨.typeError,
          by simp [EdgeNode.recv, EdgeNode.process_iot_data, hl, ha, hd]⟩
  obtain ⟨e, he2⟩ := he
  have hdis : dispatchEdge predict st m = (st, []) := by
    simp [dispatchEdge, he2]
  exact ⟨ht, ⟨e, he2⟩, hdis, by simp [serveEdge, hdis]⟩

/-- C8 amended witness: a concrete malformed payload through both handlers. -/
theorem malformed_payload_discarded_witness :
    Trigger.recv ⟨1, 2, [("s1", "d1")], []⟩ "s1" ⟨some none, none⟩ =
      (⟨1, 2, [("s1", "d1")], []⟩, []) ∧
    (∃ e, EdgeNode.recv (fun l => some l) 0 0 ⟨1, 2, [("s1", "d1")], []⟩ "s1"
        ⟨some none, none⟩ = .error e) ∧
    dispatchEdge (fun l => some l) ⟨1, 2, [("s1", "d1")], []⟩
        ⟨"s1", ⟨some none, none⟩, 0, 0⟩ = (⟨1, 2, [("s1", "d1")], []⟩, []) ∧
    serveEdge (fun l => some l) ⟨1, 2, [("s1", "d1")], []⟩
        [⟨"s1", ⟨some none, none⟩, 0, 0⟩] =
      serveEdge (fun l => some l) ⟨1, 2, [("s1", "d1")], []⟩ [] :=
  malformed_payload_discarded (fun l => some l) ⟨1, 2, [("s1", "d1")], []⟩
    ⟨"s1", ⟨some none, none⟩, 0, 0⟩ [] (Or.inr rfl) (Or.inl rfl)

/-- C9 counterexample: the device id is not taken from the header whenever
the header is present — a present but empty HTTP_DEVICE_ID header is falsy
in Python, so the expression get_device_id(environ) or sid falls back to the
connection id: the stored device id is conn1, not the header value. -/
theorem connect_empty_header_uses_sid :
    connect ⟨0, 0, [], []⟩ "conn1" ⟨some ""⟩ =
      (⟨0, 0, [("conn1", "conn1")], []⟩, [.connected "conn1" "conn1"]) ∧
    ("" : String) ≠ "conn1" := ⟨rfl, by decide⟩

/-- C9 amended: on connect, the device id equals the HTTP_DEVICE_ID header
value when that header is present and non-empty, and equals the raw
connection id when the header is absent or empty; the mapping is stored
under the connection id. -/
theorem connect_device_id_from_header (st : RelayState) (sid : String)
    (env : Environ) :
    ((env.http_device_id = none ∨ env.http_device_id = some "") →
      connect st sid env =
        ({ st with sessions := (sid, sid) :: st.sessions },
         [.connected sid sid])) ∧
    (∀ h, env.http_device_id = some h → h ≠ "" →
      connect st sid env =
        ({ st with sessions := (sid, h) :: st.sessions },
         [.connected h sid])) := by
  constructor
  · intro hd
    rcases hd with hd | hd <;> simp [connect, get_device_id, pyOr, hd]
  · intro h hd hne
    simp [connect, get_device_id, pyOr, hd, hne]

/-- C9 amended witness: an absent header and a non-empty header. -/
theorem connect_device_id_from_header_witness :
    connect ⟨0, 0, [], []⟩ "c1" ⟨none⟩ =
      (⟨0, 0, [("c1", "c1")], []⟩, [.connected "c1" "c1"]) ∧
    connect ⟨0, 0, [], []⟩ "c1" ⟨some "dev9"⟩ =
      (⟨0, 0, [("c1", "dev9")], []⟩, [.connected "dev9" "c1"]) := by
  constructor
  · have h := (connect_device_id_from_header ⟨0, 0, [], []⟩ "c1" ⟨none⟩).1
      (Or.inl rfl)
    simpa using h
  · have h := (connect_device_id_from_header ⟨0, 0, [], []⟩ "c1"
      ⟨some "dev9"⟩).2 "dev9" rfl (by decide)
    simpa using h

/-- C10: the EdgeNode.py handler checks acc_transtime first, so a payload
carrying both a non-null acc_transtime and a data field is treated solely as
a transmission report: transtime is increased by the reported value, the
handler returns with no emit, the queue and proctime are unchanged, and the
data field is never processed (the result does not depend on predict). -/
theorem recv_both_fields_transmission_only
    (predict : List String → Option (List String))
    (dtProc dtTrans t : Rat) (items : List String) (st : RelayState)
    (sid dev : String)
    (hs : lookupSession st.sessions sid = some dev) :
    EdgeNode.recv predict dtProc dtTrans st sid
        ⟨some (some t), some (some items)⟩ =
      .ok ({ st with transtime := st.transtime + t }, [],
           [.accTranstime dev t]) := by
  simp [EdgeNode.recv, hs]

/-- C10 witness: a payload carrying both fields, with a failing predict to
show the data field is not processed. -/
theorem recv_both_fields_transmission_only_witness :
    EdgeNode.recv (fun _ => none) 1 1 ⟨0, 3, [("s1", "d1")], []⟩ "s1"
        ⟨some (some 2), some (some ["a.jpg"])⟩ =
      .ok (⟨2, 3, [("s1", "d1")], []⟩, [], [.accTranstime "d1" 2]) := by
  have h := recv_both_fields_transmission_only (fun _ => none) 1 1 2
    ["a.jpg"] ⟨0, 3, [("s1", "d1")], []⟩ "s1" "d1" (by simp [lookupSession])
  simpa using h

/-- C1 witness: the order theorem at a concrete batch. -/
theorem process_iot_data_order_witness :
    EdgeNode.process_iot_data (fun l => some l) 1 2 ⟨0, 0, [], []⟩ "d1"
        (some ["a.jpg"]) =
      .ok (⟨2, 1, [], []⟩,
        [ ⟨some ["a.jpg"], none, none⟩, ⟨none, some 2, some 1⟩ ],
        [ .receivedBatch "d1" 1 ]) := by
  have h := process_iot_data_order (fun l => some l) 1 2 ⟨0, 0, [], []⟩ "d1"
    ["a.jpg"] ["a.jpg"] rfl
  simpa using h

end EdgeArch
